import Mathlib

/-!
Shallow embedding of the transactional mutation handlers of the
project-dine backend (a restaurant POS REST API), together with proofs
about the properties its specification asserts.

The embedding models the persistence gateway as explicit record states
(one `List` per SQL table) and each HTTP handler as a pure function from
the pre-call store (plus the request payload, DB-generated values such
as fresh row ids and timestamps, and an optional injected statement
failure) to an outcome carrying the HTTP status, the post-call persisted
store, and bookkeeping flags (whether a transaction was begun, whether a
pooled connection was acquired/released, how many write statements were
issued). A handler that runs inside `BEGIN`/`COMMIT`/`ROLLBACK` returns
the pre-call store unchanged on every rollback path, mirroring SQL
transaction semantics; a handler that issues plain `pool.query` calls
applies each statement's effect directly, so an injected failure leaves
the effects of the statements already issued in place.

Monetary amounts and JS numbers are modelled as `ℚ` (the concrete
inputs appearing in the spec are small exact decimals).
-/

namespace ProjectDine

/-- Monetary amounts / JS numeric values. -/
abbrev Money := ℚ

/-! ## Data model for `orders.js` (orders, order_items, payments, reviews) -/

/-- A row of the `orders` table. -/
structure OrderRow where
  id : Nat
  user_id : String
  restaurant_id : Nat
  total_price : Money
  created_at : Nat
  updated_at : Nat
deriving Repr, DecidableEq

/-- A row of the `order_items` table (keyed by owning order). -/
structure OrderItemRow where
  order_id : Nat
  menu_id : Nat
  quantity : ℚ
  price : Money
deriving Repr, DecidableEq

/-- A row of the `payments` table as written by `orders.js`. -/
structure PaymentRow where
  order_id : Nat
  amount : Money
  method : String
deriving Repr, DecidableEq

/-- A row of the `reviews` table. -/
structure ReviewRow where
  user_id : String
  order_id : Nat
  rating : ℚ
  comment : String
deriving Repr, DecidableEq

/-- The persisted store visible to the `orders.js` handlers. -/
structure OrdersDB where
  orders : List OrderRow
  order_items : List OrderItemRow
  payments : List PaymentRow
  reviews : List ReviewRow
deriving Repr, DecidableEq

/-- One line of a "place order" / "replace order contents" request body. -/
structure ItemReq where
  menu_id : Nat
  quantity : ℚ
  price : Money
deriving Repr, DecidableEq

/-- The optional `payment` object of a "place order" request body. -/
structure PaymentReq where
  amount : Money
  method : String
deriving Repr, DecidableEq

/-- Request body of `POST /orders`. -/
structure PlaceOrderReq where
  restaurant_id : Nat
  items : List ItemReq
  total_price : Money
  payment : Option PaymentReq
deriving Repr, DecidableEq

/-- Outcome of a handler that checks out a pooled client and runs a
transaction: HTTP status, persisted store after the call, and whether a
transaction was begun / a connection acquired / that connection
released. -/
structure TxnOutcome where
  status : Nat
  db : OrdersDB
  beganTxn : Bool
  acquired : Bool
  released : Bool
deriving Repr, DecidableEq

/-- Outcome of a plain (non-transactional) handler. -/
structure Outcome where
  status : Nat
  db : OrdersDB
  beganTxn : Bool
deriving Repr, DecidableEq

/-- Injected statement failure for `POST /orders`: the initial order
INSERT throws, the k-th line INSERT throws, or the payment INSERT
throws. -/
inductive FailPoint where
  | orderInsert
  | lineInsert (k : Nat)
  | paymentInsert
deriving Repr, DecidableEq

/-- Shift an injected line failure past one executed line INSERT. -/
def decFail : Option FailPoint → Option FailPoint
  | some (.lineInsert (k + 1)) => some (.lineInsert k)
  | x => x

/-- The line-INSERT loop of `POST /orders` (orders.js:57-62), run against
the transaction's pending `order_items` table; `none` means the injected
failure fired and the statement threw. -/
def insertItemsLoop (oid : Nat) :
    List ItemReq → Option FailPoint → List OrderItemRow → Option (List OrderItemRow)
  | [], _, rows => some rows
  | it :: rest, failAt, rows =>
      if failAt = some (.lineInsert 0) then none
      else
        insertItemsLoop oid rest (decFail failAt)
          (rows ++ [⟨oid, it.menu_id, it.quantity, it.price⟩])

/-- `POST /orders` (orders.js:45-79): connect, BEGIN, INSERT the order
row, INSERT each line, INSERT the payment row when present, COMMIT; on
any thrown statement ROLLBACK; release the client in `finally`. `newId`
and `now` stand for the DB-generated order id and `NOW()`. There is no
body validation before the transaction begins. -/
def placeOrder (db : OrdersDB) (uid : String) (req : PlaceOrderReq)
    (newId now : Nat) (failAt : Option FailPoint) : TxnOutcome :=
  if failAt = some .orderInsert then
    ⟨500, db, true, true, true⟩
  else
    match insertItemsLoop newId req.items failAt db.order_items with
    | none => ⟨500, db, true, true, true⟩
    | some items' =>
        let committed : OrdersDB :=
          { db with
            orders := db.orders ++ [⟨newId, uid, req.restaurant_id, req.total_price, now, now⟩],
            order_items := items' }
        match req.payment with
        | none => ⟨201, committed, true, true, true⟩
        | some p =>
            if failAt = some .paymentInsert then
              ⟨500, db, true, true, true⟩
            else
              ⟨201,
                { committed with
                  payments := committed.payments ++ [⟨newId, p.amount, p.method⟩] },
                true, true, true⟩

/-- The condition under which an injected failure actually fires during
`POST /orders`: the order INSERT always runs, the k-th line INSERT runs
iff `k` is in range, the payment INSERT runs iff a payment is present. -/
def failTriggers (req : PlaceOrderReq) : FailPoint → Prop
  | .orderInsert => True
  | .lineInsert k => k < req.items.length
  | .paymentInsert => req.payment.isSome = true

instance (req : PlaceOrderReq) (fp : FailPoint) : Decidable (failTriggers req fp) := by
  cases fp <;> simp [failTriggers] <;> infer_instance

/-- `PUT /orders/:id` (orders.js:301-340): connect, BEGIN, SELECT the
order by id and requesting user (rowCount 0 → ROLLBACK, 404), DELETE all
its lines, INSERT each submitted line, UPDATE the order's `total_price`
to the value supplied in the request body and `updated_at` to `NOW()`,
COMMIT; release in `finally`. `fail` injects a thrown statement inside
the transaction (ROLLBACK, 500). -/
def replaceOrder (db : OrdersDB) (uid : String) (oid : Nat)
    (items : List ItemReq) (total_price : Money) (now : Nat) (fail : Bool) : TxnOutcome :=
  if fail then
    ⟨500, db, true, true, true⟩
  else if db.orders.any (fun o => o.id == oid && o.user_id == uid) then
    ⟨200,
      { db with
        orders := db.orders.map (fun o =>
          if o.id == oid then { o with total_price := total_price, updated_at := now } else o),
        order_items :=
          db.order_items.filter (fun it => !(it.order_id == oid))
            ++ items.map (fun it => ⟨oid, it.menu_id, it.quantity, it.price⟩) },
      true, true, true⟩
  else
    ⟨404, db, true, true, true⟩

/-- `DELETE /orders/:id` (orders.js:82-95): one DELETE scoped to the
path id and the requesting user; 404 when zero rows matched. The
schema-level cascade removes the deleted order's lines and payments. -/
def deleteOrder (db : OrdersDB) (uid : String) (oid : Nat) : Outcome :=
  if (db.orders.filter (fun o => o.id == oid && o.user_id == uid)).length = 0 then
    ⟨404, db, false⟩
  else
    ⟨200,
      { db with
        orders := db.orders.filter (fun o => !(o.id == oid && o.user_id == uid)),
        order_items := db.order_items.filter (fun it => !(it.order_id == oid)),
        payments := db.payments.filter (fun p => !(p.order_id == oid)) },
      false⟩

/-- The rating guard of `POST /orders/:id/review` (orders.js:125):
`Number.isInteger(rating) && 1 ≤ rating ≤ 5`. -/
def ratingValid (rating : ℚ) : Bool :=
  rating.den == 1 && decide (1 ≤ rating) && decide (rating ≤ 5)

/-- `POST /orders/:id/review` (orders.js:121-140): reject an out-of-range
or non-integer rating with 400 before any statement is issued; otherwise
INSERT the review. No transaction is ever begun. -/
def submitReview (db : OrdersDB) (uid : String) (orderId : Nat)
    (rating : ℚ) (comment : String) : Outcome :=
  if !(ratingValid rating) then
    ⟨400, db, false⟩
  else
    ⟨201, { db with reviews := db.reviews ++ [⟨uid, orderId, rating, comment⟩] }, false⟩

/-! ## Data model for `routes/inventory.js` (bulk inventory update) -/

/-- A field of a duck-typed JSON payload as seen by the `typeof`
check: either a JS number or some non-numeric value. -/
inductive JsVal where
  | num (q : ℚ)
  | nonNum
deriving Repr, DecidableEq

/-- `typeof v === 'number'`. -/
def JsVal.isNumber : JsVal → Bool
  | .num _ => true
  | .nonNum => false

/-- One `{id, quantity}` element of a bulk-update request. -/
structure BulkItem where
  id : JsVal
  quantity : JsVal
deriving Repr, DecidableEq

/-- A row of the `inventory` table. -/
structure InvRow where
  id : ℚ
  name : String
  quantity : ℚ
  unit : String
  low_stock_threshold : ℚ
deriving Repr, DecidableEq

/-- The persisted store visible to the inventory handlers. -/
structure InvDB where
  inventory : List InvRow
deriving Repr, DecidableEq

/-- Outcome of `POST /inventory/bulk-update`: HTTP status, persisted
store, number of UPDATE statements issued before the handler returned,
and the connection bookkeeping flags. -/
structure BulkOutcome where
  status : Nat
  db : InvDB
  issuedWrites : Nat
  beganTxn : Bool
  acquired : Bool
  released : Bool
deriving Repr, DecidableEq

/-- The per-item loop of `POST /inventory/bulk-update`
(routes/inventory.js:158-167): for each item, check both fields are
numbers — a failing check rolls back immediately — then issue the
UPDATE against the transaction's pending state. Returns the pending
table on success (`some`) or `none` on the validation abort, together
with the number of UPDATEs issued. -/
def bulkLoop : List BulkItem → List InvRow → Nat → Option (List InvRow) × Nat
  | [], pending, issued => (some pending, issued)
  | ⟨.num i, .num q⟩ :: rest, pending, issued =>
      bulkLoop rest
        (pending.map (fun r => if r.id == i then { r with quantity := q } else r))
        (issued + 1)
  | _ :: _, _, issued => (none, issued)

/-- `POST /inventory/bulk-update` (routes/inventory.js:150-176): reject
a non-array/empty `items` with 400 before connecting; otherwise connect,
BEGIN, run the per-item validate-then-UPDATE loop, COMMIT on success or
ROLLBACK on the first malformed item; release in `finally`. `dbFail`
injects a thrown statement (ROLLBACK, 500). -/
def bulkUpdate (db : InvDB) (items : List BulkItem) (dbFail : Bool) : BulkOutcome :=
  if items.length = 0 then
    ⟨400, db, 0, false, false, false⟩
  else if dbFail then
    ⟨500, db, 0, true, true, true⟩
  else
    match bulkLoop items db.inventory 0 with
    | (none, issued) => ⟨400, db, issued, true, true, true⟩
    | (some inv, issued) => ⟨200, ⟨inv⟩, issued, true, true, true⟩

/-! ## Data model for the check/tab handlers of `src/unnamed/part_004` -/

/-- Status column of the `checks` table. -/
inductive CheckStatus where
  | Open
  | Closed
  | Paid
deriving Repr, DecidableEq

/-- A row of the `checks` table. -/
structure CheckRow where
  id : Nat
  status : CheckStatus
  tip_amount : Option Money
  closed_at : Option Nat
deriving Repr, DecidableEq

/-- A row of the `order_items` table as used by the check handlers
(each line is owned by exactly one check via `check_id`). -/
structure CkItem where
  id : Nat
  check_id : Nat
  price : Money
deriving Repr, DecidableEq

/-- A row of the `payments` table as written by the check handlers. -/
structure CkPayment where
  check_id : Nat
  method : String
  amount : Money
  tip : Option Money
  paid_at : Nat
deriving Repr, DecidableEq

/-- The persisted store visible to the check handlers. -/
structure ChecksDB where
  checks : List CheckRow
  order_items : List CkItem
  payments : List CkPayment
deriving Repr, DecidableEq

/-- Outcome of `POST /api/checks/split`. -/
structure SplitOutcome where
  status : Nat
  db : ChecksDB
  new_check_id : Option Nat
deriving Repr, DecidableEq

/-- `UPDATE order_items SET check_id = $1 WHERE id = $2`. -/
def moveItem (items : List CkItem) (itemId newCk : Nat) : List CkItem :=
  items.map (fun it => if it.id == itemId then { it with check_id := newCk } else it)

/-- The reassignment loop of `POST /api/checks/split`
(part_004:4491-4493), run with plain `pool.query` calls — there is no
transaction, so when the injected failure fires at the k-th UPDATE the
effects of the earlier UPDATEs stay in place. Returns the table plus
`true` on completion, `false` on a thrown UPDATE. -/
def splitLoop (newCk : Nat) : List Nat → Option Nat → List CkItem → List CkItem × Bool
  | [], _, items => (items, true)
  | _ :: _, some 0, items => (items, false)
  | i :: rest, failAt, items =>
      splitLoop newCk rest (failAt.map (· - 1)) (moveItem items i newCk)

/-- `POST /api/checks/split` (part_004:4486-4498): INSERT a new `'Open'`
check, then reassign each listed line id to it with one UPDATE per id,
all outside any transaction; a thrown UPDATE is caught and answered with
500, leaving the new check row and every already-issued reassignment in
place. `newId` stands for the DB-generated check id, `failAt` injects a
throw at the k-th UPDATE. -/
def checksSplit (db : ChecksDB) (item_ids : List Nat) (newId : Nat)
    (failAt : Option Nat) : SplitOutcome :=
  let db1 : ChecksDB := { db with checks := db.checks ++ [⟨newId, .Open, none, none⟩] }
  match splitLoop newId item_ids failAt db1.order_items with
  | (items', true) => ⟨200, { db1 with order_items := items' }, some newId⟩
  | (items', false) => ⟨500, { db1 with order_items := items' }, none⟩

/-- `POST /api/payment/submit` (part_004:4398-4413): INSERT the payment
row, then unconditionally `UPDATE checks SET status = 'Closed',
closed_at = NOW(), tip_amount = $1 WHERE id = $2` — with no guard on the
prior status. -/
def paymentSubmit (db : ChecksDB) (cid : Nat) (ptype : String)
    (amount tip : Money) (now : Nat) : ChecksDB :=
  { db with
    payments := db.payments ++ [⟨cid, ptype, amount, some tip, now⟩],
    checks := db.checks.map (fun c =>
      if c.id == cid then { c with status := .Closed, closed_at := some now, tip_amount := some tip }
      else c) }

/-- `POST /api/order/pay` (part_004:4158-4173): INSERT the payment row,
then unconditionally `UPDATE checks SET status = 'Paid' WHERE id = $1`. -/
def orderPay (db : ChecksDB) (cid : Nat) (method : String)
    (amount : Money) (now : Nat) : ChecksDB :=
  { db with
    payments := db.payments ++ [⟨cid, method, amount, none, now⟩],
    checks := db.checks.map (fun c =>
      if c.id == cid then { c with status := .Paid } else c) }

/-- `POST /api/checks/close` (part_004:4355-4366): `UPDATE checks SET
tip_amount = $1, status = 'Paid', closed_at = NOW() WHERE id = $2 AND
status = 'Closed'`. -/
def checksClose (db : ChecksDB) (cid : Nat) (tip : Money) (now : Nat) : ChecksDB :=
  { db with
    checks := db.checks.map (fun c =>
      if c.id == cid && c.status == .Closed then
        { c with tip_amount := some tip, status := .Paid, closed_at := some now }
      else c) }

/-- `POST /api/checks/pay-cash` (part_004:4369-4380): `UPDATE checks SET
status = 'Paid', closed_at = NOW() WHERE id = $1 AND status = 'Closed'`. -/
def payCash (db : ChecksDB) (cid : Nat) (now : Nat) : ChecksDB :=
  { db with
    checks := db.checks.map (fun c =>
      if c.id == cid && c.status == .Closed then
        { c with status := .Paid, closed_at := some now }
      else c) }

/-- `PUT /api/checks/:check_id/tip` (part_004:4463-4472): `UPDATE checks
SET tip_amount = $1 WHERE id = $2`; the status column is untouched. -/
def tipUpdate (db : ChecksDB) (cid : Nat) (tip : Money) : ChecksDB :=
  { db with
    checks := db.checks.map (fun c =>
      if c.id == cid then { c with tip_amount := some tip } else c) }

/-! ## Data model for the gift-card payment handler of `part_004` -/

/-- A row of the `gift_cards` table. -/
structure GiftCardRow where
  card_number : String
  balance : Money
deriving Repr, DecidableEq

/-- A row of the `payments` table as written by the gift-card handler. -/
structure GcPayment where
  order_id : Nat
  payment_method : String
  amount : Money
deriving Repr, DecidableEq

/-- The persisted store visible to the gift-card handler. -/
structure GcDB where
  gift_cards : List GiftCardRow
  payments : List GcPayment
deriving Repr, DecidableEq

/-- Outcome of `POST /api/payments/gift-card`: HTTP status, persisted
store, and the `remaining_balance` reported on success. -/
structure GcOutcome where
  status : Nat
  db : GcDB
  remaining : Option Money
deriving Repr, DecidableEq

/-- `POST /api/payments/gift-card` (part_004:1124-1143): SELECT the
card's balance (no row → 400), reject a balance strictly below the
requested amount with 400, otherwise UPDATE the card's balance down by
the amount, INSERT one `'Gift Card'` payment row, and report
`balance - amount` as the remaining balance. -/
def giftCardPay (db : GcDB) (card : String) (orderId : Nat) (amount : Money) : GcOutcome :=
  match db.gift_cards.find? (fun g => g.card_number == card) with
  | none => ⟨400, db, none⟩
  | some g =>
      if g.balance < amount then
        ⟨400, db, none⟩
      else
        ⟨200,
          { gift_cards := db.gift_cards.map (fun x =>
              if x.card_number == card then { x with balance := x.balance - amount } else x),
            payments := db.payments ++ [⟨orderId, "Gift Card", amount⟩] },
          some (g.balance - amount)⟩

/-! ## Helper lemmas -/

/-- `decFail` fixes every failure point that is not a line INSERT. -/
lemma decFail_eq_self (failAt : Option FailPoint)
    (h : ∀ k, failAt ≠ some (.lineInsert k)) : decFail failAt = failAt := by
  match failAt with
  | none => rfl
  | some .orderInsert => rfl
  | some .paymentInsert => rfl
  | some (.lineInsert k) => exact absurd rfl (h k)

/-- When no line-INSERT failure is injected, the line loop of
`POST /orders` appends one row per submitted line. -/
lemma insertItemsLoop_complete (oid : Nat) (failAt : Option FailPoint)
    (h : ∀ k, failAt ≠ some (.lineInsert k)) :
    ∀ (items : List ItemReq) (rows : List OrderItemRow),
      insertItemsLoop oid items failAt rows =
        some (rows ++ items.map (fun it => ⟨oid, it.menu_id, it.quantity, it.price⟩)) := by
  intro items
  induction items with
  | nil => intro rows; simp [insertItemsLoop]
  | cons it rest ih =>
      intro rows
      rw [insertItemsLoop, if_neg (h 0), decFail_eq_self failAt h, ih]
      simp

/-- An injected failure at an in-range line index makes the line loop
abort with `none`. -/
lemma insertItemsLoop_fail (oid : Nat) :
    ∀ (items : List ItemReq) (k : Nat) (rows : List OrderItemRow),
      k < items.length →
      insertItemsLoop oid items (some (.lineInsert k)) rows = none := by
  intro items
  induction items with
  | nil => intro k rows hk; simp at hk
  | cons it rest ih =>
      intro k rows hk
      match k with
      | 0 => rw [insertItemsLoop, if_pos rfl]
      | j + 1 =>
          rw [insertItemsLoop, if_neg (by simp), decFail]
          exact ih j _ (by simpa using hk)

/-- Splitting a list by a `Bool` predicate preserves its length. -/
lemma length_filter_split {α : Type} (l : List α) (p : α → Bool) :
    (l.filter p).length + (l.filter (fun a => !(p a))).length = l.length := by
  induction l with
  | nil => simp
  | cons a t ih =>
      cases h : p a <;> simp [List.filter_cons, h] <;> omega

/-! ## C1 — the replaced order's persisted total -/

/-- Store for the C1 counterexample: one order (id 1) owned by `"u1"`. -/
def dbC1 : OrdersDB := ⟨[⟨1, "u1", 4, 0, 0, 0⟩], [], [], []⟩

/-- C1: the claim says a successful `PUT /orders/:id` with lines
[(qty 2, price 5), (qty 1, price 3)] persists total 13 regardless of the
request's `total_price`. Counterexample: with those exact lines and a
request `total_price` of 99 the call succeeds and persists 99 ≠ 13 —
the handler writes the client-supplied total without recomputing. -/
theorem c1_total_counterexample :
    (replaceOrder dbC1 "u1" 1 [⟨10, 2, 5⟩, ⟨11, 1, 3⟩] 99 1 false).status = 200 ∧
    ((replaceOrder dbC1 "u1" 1 [⟨10, 2, 5⟩, ⟨11, 1, 3⟩] 99 1 false).db.orders.map
      OrderRow.total_price) = [99] ∧
    (2 : ℚ) * 5 + 1 * 3 = 13 ∧ (99 : ℚ) ≠ 13 := by
  refine ⟨rfl, rfl, by norm_num, by norm_num⟩

/-- C1 (amended): for every successful "replace order contents" call,
the order total persisted at commit equals the `total_price` supplied in
the request body — the executor does not recompute it from the lines, so
it equals 13 only when the request says 13. -/
theorem c1_total_amended (db : OrdersDB) (uid : String) (oid : Nat)
    (items : List ItemReq) (tp : Money) (now : Nat)
    (h : ∃ o ∈ db.orders, o.id = oid ∧ o.user_id = uid) :
    (replaceOrder db uid oid items tp now false).status = 200 ∧
    ∀ o ∈ (replaceOrder db uid oid items tp now false).db.orders,
      o.id = oid → o.total_price = tp := by
  obtain ⟨o0, ho0, hid, huid⟩ := h
  have hany : db.orders.any (fun o => o.id == oid && o.user_id == uid) = true :=
    List.any_eq_true.mpr ⟨o0, ho0, by simp [hid, huid]⟩
  rw [replaceOrder, if_neg (by simp), if_pos hany]
  refine ⟨rfl, ?_⟩
  intro o hmem hoid
  obtain ⟨o', ho', rfl⟩ := List.mem_map.mp hmem
  by_cases hb : o'.id = oid
  · simp [hb]
  · simp only [beq_eq_false_iff_ne.mpr hb, if_neg] at hoid ⊢
    exact absurd hoid hb

/-- Witness for the amended C1 at the spec's example input. -/
theorem c1_total_amended_witness :
    (replaceOrder dbC1 "u1" 1 [⟨10, 2, 5⟩, ⟨11, 1, 3⟩] 13 1 false).status = 200 :=
  (c1_total_amended dbC1 "u1" 1 [⟨10, 2, 5⟩, ⟨11, 1, 3⟩] 13 1
    ⟨⟨1, "u1", 4, 0, 0, 0⟩, by simp [dbC1], rfl, rfl⟩).1

/-! ## C2 — place order rolls back completely on any failure -/

/-- C2: for `POST /orders`, if an injected failure fires at any executed
step — the order INSERT, an in-range line INSERT (`k <` number of
lines), or the payment INSERT when a payment is present — the handler
answers 500 and the persisted store is exactly the pre-call store: no
order row, line, or payment row survives the rollback. -/
theorem c2_place_order_rollback (db : OrdersDB) (uid : String)
    (req : PlaceOrderReq) (newId now : Nat) (fp : FailPoint)
    (h : failTriggers req fp) :
    placeOrder db uid req newId now (some fp) = ⟨500, db, true, true, true⟩ := by
  match fp with
  | .orderInsert => rw [placeOrder, if_pos rfl]
  | .lineInsert k =>
      rw [placeOrder, if_neg (by simp),
        insertItemsLoop_fail newId req.items k db.order_items h]
  | .paymentInsert =>
      obtain ⟨p, hp⟩ := Option.isSome_iff_exists.mp h
      rw [placeOrder, if_neg (by simp),
        insertItemsLoop_complete newId _ (by simp) req.items db.order_items]
      simp [hp]

/-- Witness for C2: a forced failure on line 0 of a 1-line order with a
payment leaves the (empty) store untouched. -/
theorem c2_place_order_rollback_witness :
    placeOrder ⟨[], [], [], []⟩ "u1" ⟨4, [⟨10, 2, 13/2⟩], 13, some ⟨13, "Card"⟩⟩ 1 0
      (some (.lineInsert 0)) = ⟨500, ⟨[], [], [], []⟩, true, true, true⟩ :=
  c2_place_order_rollback ⟨[], [], [], []⟩ "u1" ⟨4, [⟨10, 2, 13/2⟩], 13, some ⟨13, "Card"⟩⟩ 1 0
    (.lineInsert 0) (by simp [failTriggers])

/-! ## C3 — bulk inventory update and malformed items -/

/-- A batch containing a malformed item makes the bulk-update loop abort
with `none` (at the first malformed item). -/
lemma bulkLoop_abort :
    ∀ (items : List BulkItem) (pending : List InvRow) (issued : Nat),
      (∃ it ∈ items, (it.id.isNumber && it.quantity.isNumber) = false) →
      (bulkLoop items pending issued).1 = none := by
  intro items
  induction items with
  | nil => intro pending issued h; simp at h
  | cons a rest ih =>
      intro pending issued h
      obtain ⟨ai, aq⟩ := a
      cases ai with
      | num i =>
          cases aq with
          | num q =>
              apply ih
              rcases h with ⟨it, hit, hbad⟩
              rcases List.mem_cons.mp hit with rfl | hmem
              · simp [JsVal.isNumber] at hbad
              · exact ⟨it, hmem, hbad⟩
          | nonNum => rfl
      | nonNum => cases aq <;> rfl

/-- Inventory store for the C3 counterexample: one row, id 1, qty 2. -/
def dbC3 : InvDB := ⟨[⟨1, "flour", 2, "kg", 0⟩]⟩

/-- C3: the claim says a batch with a non-numeric item aborts *before
any write has been issued* (validate-all-then-write). Counterexample:
for the batch [{id 1, qty 5}, {id non-numeric, qty 3}] the handler has
already issued one UPDATE when it hits the malformed item — validation
is interleaved with the writes — though the rollback still leaves every
inventory row unchanged. -/
theorem c3_bulk_counterexample :
    (bulkUpdate dbC3 [⟨.num 1, .num 5⟩, ⟨.nonNum, .num 3⟩] false).status = 400 ∧
    (bulkUpdate dbC3 [⟨.num 1, .num 5⟩, ⟨.nonNum, .num 3⟩] false).issuedWrites = 1 ∧
    (bulkUpdate dbC3 [⟨.num 1, .num 5⟩, ⟨.nonNum, .num 3⟩] false).db = dbC3 :=
  ⟨rfl, rfl, rfl⟩

/-- C3 (amended): validation is per item, interleaved with the UPDATEs
inside the transaction, so UPDATEs for the valid items preceding the
first malformed one are issued; but the batch then rolls back, the
handler answers 400, and no inventory row's committed value changes. -/
theorem c3_bulk_amended (db : InvDB) (items : List BulkItem)
    (h : ∃ it ∈ items, (it.id.isNumber && it.quantity.isNumber) = false) :
    (bulkUpdate db items false).status = 400 ∧
    (bulkUpdate db items false).db = db := by
  have hlen : ¬ items.length = 0 := by
    obtain ⟨it, hit, _⟩ := h
    cases items
    · simp at hit
    · simp
  have habort := bulkLoop_abort items db.inventory 0 h
  rcases hE : bulkLoop items db.inventory 0 with ⟨o, n⟩
  rw [hE] at habort
  dsimp at habort
  subst habort
  rw [bulkUpdate, if_neg hlen, if_neg (by simp), hE]
  exact ⟨rfl, rfl⟩

/-- Witness for the amended C3: one valid and one malformed item. -/
theorem c3_bulk_amended_witness :
    (bulkUpdate dbC3 [⟨.num 1, .num 5⟩, ⟨.num 2, .nonNum⟩] false).db = dbC3 :=
  (c3_bulk_amended dbC3 [⟨.num 1, .num 5⟩, ⟨.num 2, .nonNum⟩]
    ⟨⟨.num 2, .nonNum⟩, by simp, rfl⟩).2

/-! ## C6 — numeric validation before the transaction -/

/-- C6: the claim says every mutation validates numeric domain
constraints before a transaction is opened, so a violating payload never
begins a transaction. Counterexample: `POST /orders` with a line of
quantity −1 (violating quantity ≥ 0) opens a transaction and succeeds
with 201 — the handler performs no numeric validation at all. -/
theorem c6_validation_counterexample :
    (placeOrder ⟨[], [], [], []⟩ "u1" ⟨4, [⟨10, -1, 5⟩], 5, none⟩ 1 0 none).beganTxn = true ∧
    (placeOrder ⟨[], [], [], []⟩ "u1" ⟨4, [⟨10, -1, 5⟩], 5, none⟩ 1 0 none).status = 201 ∧
    ¬((0 : ℚ) ≤ -1) :=
  ⟨rfl, rfl, by norm_num⟩

/-- C6 (amended): the review endpoint does validate its numeric field —
a rating that is not an integer in [1, 5] is rejected with 400 before
any statement, with no transaction begun and the store untouched — but
`POST /orders` opens its transaction for every payload, without checking
quantities or prices, so malformed numeric input does reach the
transactional path there. -/
theorem c6_validation_amended :
    (∀ (db : OrdersDB) (uid : String) (oid : Nat) (rating : ℚ) (comment : String),
      ratingValid rating = false →
      submitReview db uid oid rating comment = ⟨400, db, false⟩) ∧
    (∀ (db : OrdersDB) (uid : String) (req : PlaceOrderReq) (newId now : Nat)
      (failAt : Option FailPoint),
      (placeOrder db uid req newId now failAt).beganTxn = true) := by
  constructor
  · intro db uid oid rating comment hr
    rw [submitReview, hr]
    simp
  · intro db uid req newId now failAt
    rw [placeOrder]
    split
    · rfl
    · cases hE : insertItemsLoop newId req.items failAt db.order_items with
      | none => rfl
      | some items' =>
          cases hp : req.payment with
          | none => rfl
          | some p =>
              dsimp only
              split <;> rfl

/-- Witness for the amended C6: rating 7 is rejected with 400. -/
theorem c6_validation_amended_witness :
    submitReview ⟨[], [], [], []⟩ "u1" 1 7 "ok" = ⟨400, ⟨[], [], [], []⟩, false⟩ :=
  c6_validation_amended.1 ⟨[], [], [], []⟩ "u1" 1 7 "ok" rfl

/-! ## C7 — ownership check before any write in replace-order -/

/-- C7: `PUT /orders/:id` with no order owned by the requesting subject
answers 404 with the store exactly as before — no line deleted, no line
inserted, no order row touched; when the ownership check passes, the
handler deletes all the order's lines, inserts the submitted lines,
updates the order's total and timestamp, and leaves payments alone. -/
theorem c7_replace_order_guard (db : OrdersDB) (uid : String) (oid : Nat)
    (items : List ItemReq) (tp : Money) (now : Nat) :
    (¬(∃ o ∈ db.orders, o.id = oid ∧ o.user_id = uid) →
      replaceOrder db uid oid items tp now false = ⟨404, db, true, true, true⟩) ∧
    ((∃ o ∈ db.orders, o.id = oid ∧ o.user_id = uid) →
      (replaceOrder db uid oid items tp now false).status = 200 ∧
      (replaceOrder db uid oid items tp now false).db.order_items =
        db.order_items.filter (fun it => !(it.order_id == oid))
          ++ items.map (fun it => ⟨oid, it.menu_id, it.quantity, it.price⟩) ∧
      (replaceOrder db uid oid items tp now false).db.orders =
        db.orders.map (fun o =>
          if o.id == oid then { o with total_price := tp, updated_at := now } else o) ∧
      (replaceOrder db uid oid items tp now false).db.payments = db.payments) := by
  constructor
  · intro hno
    have hany : db.orders.any (fun o => o.id == oid && o.user_id == uid) = false := by
      rw [← Bool.not_eq_true, List.any_eq_true]
      intro ⟨o, ho, hp⟩
      exact hno ⟨o, ho, by simpa using hp⟩
    rw [replaceOrder, if_neg (by simp), if_neg (by simp [hany])]
  · intro ⟨o0, ho0, hid, huid⟩
    have hany : db.orders.any (fun o => o.id == oid && o.user_id == uid) = true :=
      List.any_eq_true.mpr ⟨o0, ho0, by simp [hid, huid]⟩
    rw [replaceOrder, if_neg (by simp), if_pos hany]
    exact ⟨rfl, rfl, rfl, rfl⟩

/-- Witness for C7: a 404 on an empty store, and a 200 when the order is
owned by the caller. -/
theorem c7_replace_order_guard_witness :
    replaceOrder ⟨[], [], [], []⟩ "u1" 1 [] 0 0 false
      = ⟨404, ⟨[], [], [], []⟩, true, true, true⟩ ∧
    (replaceOrder dbC1 "u1" 1 [⟨10, 2, 5⟩] 13 1 false).status = 200 := by
  constructor
  · exact (c7_replace_order_guard ⟨[], [], [], []⟩ "u1" 1 [] 0 0).1 (by simp)
  · exact ((c7_replace_order_guard dbC1 "u1" 1 [⟨10, 2, 5⟩] 13 1).2
      ⟨⟨1, "u1", 4, 0, 0, 0⟩, by simp [dbC1], rfl, rfl⟩).1

/-! ## C10 — delete-order scoping -/

/-- Under distinct order ids, at most one row matches the
id-and-owner predicate of `DELETE /orders/:id`. -/
lemma filter_owned_length_le_one (l : List OrderRow) (oid : Nat) (uid : String)
    (h : (l.map OrderRow.id).Nodup) :
    (l.filter (fun o => o.id == oid && o.user_id == uid)).length ≤ 1 := by
  induction l with
  | nil => simp
  | cons a t ih =>
      rw [List.map_cons, List.nodup_cons] at h
      cases hp : (a.id == oid && a.user_id == uid) with
      | false =>
          rw [List.filter_cons, hp]
          exact ih h.2
      | true =>
          have haid : a.id = oid := by
            simp only [Bool.and_eq_true, beq_iff_eq] at hp
            exact hp.1
          have hnil : t.filter (fun o => o.id == oid && o.user_id == uid) = [] := by
            rw [List.filter_eq_nil_iff]
            intro x hx hpx
            simp only [Bool.and_eq_true, beq_iff_eq] at hpx
            exact h.1 (List.mem_map.mpr ⟨x, hx, by rw [hpx.1, haid]⟩)
          rw [List.filter_cons, hp]
          simp [hnil]

/-- C10: `DELETE /orders/:id` removes at most the single order row whose
id is the path id and whose owner is the requesting subject (given the
id column is a key); every order of another id or owner survives; the
handler answers 404 exactly when no such owned row exists, and then the
store is unmodified. -/
theorem c10_delete_order_scoped (db : OrdersDB) (uid : String) (oid : Nat)
    (h : (db.orders.map OrderRow.id).Nodup) :
    ((deleteOrder db uid oid).status = 404 ↔
      ∀ o ∈ db.orders, ¬(o.id = oid ∧ o.user_id = uid)) ∧
    ((deleteOrder db uid oid).status = 404 → (deleteOrder db uid oid).db = db) ∧
    (∀ o ∈ db.orders, ¬(o.id = oid ∧ o.user_id = uid) →
      o ∈ (deleteOrder db uid oid).db.orders) ∧
    db.orders.length ≤ (deleteOrder db uid oid).db.orders.length + 1 := by
  by_cases hlen : (db.orders.filter (fun o => o.id == oid && o.user_id == uid)).length = 0
  · rw [deleteOrder, if_pos hlen]
    have hempty : ∀ o ∈ db.orders, ¬(o.id = oid ∧ o.user_id = uid) := by
      intro o ho hoid
      have : o ∈ db.orders.filter (fun o => o.id == oid && o.user_id == uid) :=
        List.mem_filter.mpr ⟨ho, by simp [hoid.1, hoid.2]⟩
      rw [List.length_eq_zero.mp hlen] at this
      simp at this
    exact ⟨⟨fun _ => hempty, fun _ => rfl⟩, fun _ => rfl, fun o ho _ => ho, Nat.le_succ _⟩
  · rw [deleteOrder, if_neg hlen]
    refine ⟨⟨fun hs => by simp at hs, ?_⟩, fun hs => by simp at hs, ?_, ?_⟩
    · intro hall
      exfalso
      apply hlen
      rw [List.length_eq_zero, List.filter_eq_nil_iff]
      intro o ho hpo
      simp only [Bool.and_eq_true, beq_iff_eq] at hpo
      exact hall o ho hpo
    · intro o ho hno
      refine List.mem_filter.mpr ⟨ho, ?_⟩
      simp only [Bool.not_eq_eq_eq_not, Bool.not_true, Bool.and_eq_false_iff]
      by_cases hi : o.id = oid
      · by_cases hu : o.user_id = uid
        · exact absurd ⟨hi, hu⟩ hno
        · exact Or.inr (by simpa using hu)
      · exact Or.inl (by simpa using hi)
    · have hsplit := length_filter_split db.orders (fun o => o.id == oid && o.user_id == uid)
      have hone := filter_owned_length_le_one db.orders oid uid h
      dsimp only
      omega

/-- Store for the C10 witness: two orders, distinct ids, different
owners. -/
def dbC10 : OrdersDB := ⟨[⟨1, "u1", 4, 10, 0, 0⟩, ⟨2, "u2", 4, 20, 0, 0⟩], [], [], []⟩

/-- Witness for C10 on a two-order store with distinct ids: the delete
removes at most one order row. -/
theorem c10_delete_order_scoped_witness :
    dbC10.orders.length ≤ (deleteOrder dbC10 "u1" 1).db.orders.length + 1 :=
  (c10_delete_order_scoped dbC10 "u1" 1 (by simp [dbC10])).2.2.2

/-! ## C4 — check splitting -/

/-- Reassigning one line and then applying a bulk conditional
reassignment is the bulk reassignment with the extra id. -/
lemma moveItem_map_compose (ck i : Nat) (ids : List Nat) (items : List CkItem) :
    (moveItem items i ck).map
        (fun it => if it.id ∈ ids then { it with check_id := ck } else it) =
      items.map (fun it => if it.id ∈ i :: ids then { it with check_id := ck } else it) := by
  rw [moveItem, List.map_map]
  have hfun :
      ((fun it : CkItem => if it.id ∈ ids then { it with check_id := ck } else it) ∘
        (fun it : CkItem => if it.id == i then { it with check_id := ck } else it)) =
      fun it : CkItem => if it.id ∈ i :: ids then { it with check_id := ck } else it := by
    funext it
    by_cases hi : it.id = i
    · by_cases hm : it.id ∈ ids <;> simp [Function.comp, hi, hm]
    · by_cases hm : it.id ∈ ids <;>
        simp [Function.comp, beq_eq_false_iff_ne.mpr hi, hm, hi]
  rw [hfun]

/-- Line ids are preserved by one reassignment UPDATE. -/
lemma moveItem_map_id (items : List CkItem) (i ck : Nat) :
    (moveItem items i ck).map CkItem.id = items.map CkItem.id := by
  rw [moveItem, List.map_map]
  have hfun : (CkItem.id ∘ fun it : CkItem =>
      if it.id == i then { it with check_id := ck } else it) = CkItem.id := by
    funext it
    by_cases hi : it.id = i <;> simp [Function.comp, hi]
  rw [hfun]

/-- The split loop preserves the multiset of line ids in every outcome
(lines are only reassigned, never inserted, duplicated or deleted). -/
lemma splitLoop_map_id (ck : Nat) :
    ∀ (ids : List Nat) (failAt : Option Nat) (items : List CkItem),
      (splitLoop ck ids failAt items).1.map CkItem.id = items.map CkItem.id := by
  intro ids
  induction ids with
  | nil => intro failAt items; rfl
  | cons i rest ih =>
      intro failAt items
      match failAt with
      | some 0 => rfl
      | none =>
          rw [show splitLoop ck (i :: rest) none items
              = splitLoop ck rest none (moveItem items i ck) from rfl, ih]
          exact moveItem_map_id items i ck
      | some (k + 1) =>
          rw [show splitLoop ck (i :: rest) (some (k + 1)) items
              = splitLoop ck rest (some k) (moveItem items i ck) from rfl, ih]
          exact moveItem_map_id items i ck

/-- Without an injected failure, the split loop reassigns exactly the
listed ids and reports completion. -/
lemma splitLoop_none (ck : Nat) :
    ∀ (ids : List Nat) (items : List CkItem),
      splitLoop ck ids none items =
        (items.map (fun it => if it.id ∈ ids then { it with check_id := ck } else it),
          true) := by
  intro ids
  induction ids with
  | nil => intro items; simp [splitLoop]
  | cons i rest ih =>
      intro items
      rw [show splitLoop ck (i :: rest) none items
          = splitLoop ck rest none (moveItem items i ck) from rfl, ih,
        moveItem_map_compose]

/-- With a failure injected at the k-th UPDATE, the split loop has
reassigned exactly the first k listed ids when it stops, and reports
completion only when fewer than k UPDATEs were needed. -/
lemma splitLoop_some (ck : Nat) :
    ∀ (ids : List Nat) (k : Nat) (items : List CkItem),
      splitLoop ck ids (some k) items =
        (items.map (fun it =>
            if it.id ∈ ids.take k then { it with check_id := ck } else it),
          decide (ids.length ≤ k)) := by
  intro ids
  induction ids with
  | nil => intro k items; simp [splitLoop]
  | cons i rest ih =>
      intro k items
      match k with
      | 0 => simp [splitLoop]
      | k + 1 =>
          rw [show splitLoop ck (i :: rest) (some (k + 1)) items
              = splitLoop ck rest (some k) (moveItem items i ck) from rfl, ih,
            moveItem_map_compose]
          simp

/-- Store for the C4/C5 check counterexamples: check 1 is `Open` and
owns lines 7 and 9. -/
def dbC4 : ChecksDB := ⟨[⟨1, .Open, none, none⟩], [⟨7, 1, 5⟩, ⟨9, 1, 3⟩], []⟩

/-- C4: the claim says splitting is atomic — afterwards either the new
check holds exactly the specified ids, or (on any failure) no line has
moved. Counterexample: splitting lines {7, 9} off check 1 with a thrown
second UPDATE leaves line 7 on the new check 2 and line 9 on check 1 —
a partial move (the handler runs outside any transaction), so neither
disjunct holds. -/
theorem c4_split_counterexample :
    dbC4.order_items.map CkItem.check_id = [1, 1] ∧
    (checksSplit dbC4 [7, 9] 2 (some 1)).status = 500 ∧
    (checksSplit dbC4 [7, 9] 2 (some 1)).db.order_items.map CkItem.check_id = [2, 1] :=
  ⟨rfl, rfl, rfl⟩

/-- C4 (amended): splitting always preserves the set of line ids (each
line belongs to exactly one check and the total line count is
unchanged), and always creates the new check; without a failure exactly
the specified ids are reassigned to the new check; but the loop is not
atomic: a failure at the k-th UPDATE leaves exactly the first k
specified ids reassigned. -/
theorem c4_split_amended (db : ChecksDB) (ids : List Nat) (newId : Nat)
    (failAt : Option Nat) :
    ((checksSplit db ids newId failAt).db.order_items.map CkItem.id
        = db.order_items.map CkItem.id) ∧
    ((checksSplit db ids newId failAt).db.checks
        = db.checks ++ [⟨newId, .Open, none, none⟩]) ∧
    (failAt = none →
      (checksSplit db ids newId failAt).db.order_items =
        db.order_items.map (fun it =>
          if it.id ∈ ids then { it with check_id := newId } else it)) ∧
    (∀ k, failAt = some k →
      (checksSplit db ids newId failAt).db.order_items =
        db.order_items.map (fun it =>
          if it.id ∈ ids.take k then { it with check_id := newId } else it)) := by
  refine ⟨?_, ?_, ?_, ?_⟩
  · rcases hE : splitLoop newId ids failAt db.order_items with ⟨items', ok⟩
    have := splitLoop_map_id newId ids failAt db.order_items
    rw [hE] at this
    cases ok <;> simp [checksSplit, hE] <;> exact this
  · rcases hE : splitLoop newId ids failAt db.order_items with ⟨items', ok⟩
    cases ok <;> simp [checksSplit, hE]
  · rintro rfl
    rw [checksSplit, splitLoop_none]
  · rintro k rfl
    rw [checksSplit, splitLoop_some]
    cases hD : decide (ids.length ≤ k) <;> rfl

/-- Witness for the amended C4 at the counterexample input: with a
failure at the second UPDATE, exactly the first listed id has moved. -/
theorem c4_split_amended_witness :
    (checksSplit dbC4 [7, 9] 2 (some 1)).db.order_items =
      dbC4.order_items.map (fun it =>
        if it.id ∈ [7, 9].take 1 then { it with check_id := 2 } else it) :=
  (c4_split_amended dbC4 [7, 9] 2 (some 1)).2.2.2 1 rfl

/-! ## C5 — the check status machine -/

/-- Store for the C5 counterexample: a single `Paid` check. -/
def dbC5 : ChecksDB := ⟨[⟨1, .Paid, some 2, some 5⟩], [], []⟩

/-- C5: the claim says `Paid` is terminal — no operation moves a check
out of `Paid`. Counterexample: `POST /api/payment/submit` on a `Paid`
check sets its status back to `Closed` (the UPDATE has no guard on the
prior status). -/
theorem c5_paid_terminal_counterexample :
    dbC5.checks.map CheckRow.status = [.Paid] ∧
    (paymentSubmit dbC5 1 "Card" 20 3 7).checks.map CheckRow.status = [.Closed] :=
  ⟨rfl, rfl⟩

/-- C5 (amended): the full status-transition behaviour. Close and
pay-cash move a check to `Paid` only from `Closed` and leave every other
check (including `Paid` ones) unchanged; tip update changes no status;
splitting changes no existing status and appends a fresh `Open` check;
but payment-submit unconditionally forces the target check to `Closed`
(so a `Paid` check moves back to `Closed` — `Paid` is not terminal) and
order-pay unconditionally forces it to `Paid` (even straight from
`Open`). -/
theorem c5_status_transitions :
    (∀ (db : ChecksDB) (cid : Nat) (tip : Money) (now : Nat),
      (checksClose db cid tip now).checks.map CheckRow.status =
        db.checks.map (fun c =>
          if c.id == cid && c.status == CheckStatus.Closed then .Paid else c.status)) ∧
    (∀ (db : ChecksDB) (cid now : Nat),
      (payCash db cid now).checks.map CheckRow.status =
        db.checks.map (fun c =>
          if c.id == cid && c.status == CheckStatus.Closed then .Paid else c.status)) ∧
    (∀ (db : ChecksDB) (cid : Nat) (tip : Money),
      (tipUpdate db cid tip).checks.map CheckRow.status =
        db.checks.map CheckRow.status) ∧
    (∀ (db : ChecksDB) (ids : List Nat) (newId : Nat) (failAt : Option Nat),
      (checksSplit db ids newId failAt).db.checks.map CheckRow.status =
        db.checks.map CheckRow.status ++ [.Open]) ∧
    (∀ (db : ChecksDB) (cid : Nat) (ptype : String) (amount tip : Money) (now : Nat),
      (paymentSubmit db cid ptype amount tip now).checks.map CheckRow.status =
        db.checks.map (fun c => if c.id == cid then CheckStatus.Closed else c.status)) ∧
    (∀ (db : ChecksDB) (cid : Nat) (method : String) (amount : Money) (now : Nat),
      (orderPay db cid method amount now).checks.map CheckRow.status =
        db.checks.map (fun c => if c.id == cid then CheckStatus.Paid else c.status)) := by
  refine ⟨?_, ?_, ?_, ?_, ?_, ?_⟩
  · intro db cid tip now
    rw [checksClose, List.map_map]
    refine congrFun (congrArg _ (funext fun c => ?_)) _
    by_cases h : (c.id == cid && c.status == CheckStatus.Closed) = true <;>
      simp [Function.comp, h]
  · intro db cid now
    rw [payCash, List.map_map]
    refine congrFun (congrArg _ (funext fun c => ?_)) _
    by_cases h : (c.id == cid && c.status == CheckStatus.Closed) = true <;>
      simp [Function.comp, h]
  · intro db cid tip
    rw [tipUpdate, List.map_map]
    refine congrFun (congrArg _ (funext fun c => ?_)) _
    by_cases h : (c.id == cid) = true <;> simp [Function.comp, h]
  · intro db ids newId failAt
    rcases hE : splitLoop newId ids failAt db.order_items with ⟨items', ok⟩
    cases ok <;> simp [checksSplit, hE]
  · intro db cid ptype amount tip now
    rw [paymentSubmit, List.map_map]
    refine congrFun (congrArg _ (funext fun c => ?_)) _
    by_cases h : (c.id == cid) = true <;> simp [Function.comp, h]
  · intro db cid method amount now
    rw [orderPay, List.map_map]
    refine congrFun (congrArg _ (funext fun c => ?_)) _
    by_cases h : (c.id == cid) = true <;> simp [Function.comp, h]

/-! ## C9 — gift-card payment -/

/-- After the balance UPDATE, the first row found for the card number is
the found row with its balance decreased by the amount. -/
lemma find?_after_balance_update (card : String) (amount : Money) :
    ∀ (l : List GiftCardRow) (g : GiftCardRow),
      l.find? (fun x => x.card_number == card) = some g →
      (l.map (fun x =>
          if x.card_number == card then { x with balance := x.balance - amount }
          else x)).find? (fun x => x.card_number == card) =
        some { g with balance := g.balance - amount } := by
  intro l
  induction l with
  | nil => intro g h; simp at h
  | cons a t ih =>
      intro g h
      cases pa : (a.card_number == card) with
      | true =>
          simp only [List.find?_cons_eq_some, pa, true_and, Bool.not_true,
            Bool.false_eq_true, false_and, or_false] at h
          subst h
          rw [List.map_cons, if_pos pa]
          exact List.find?_cons_of_pos _ (by simpa using pa)
      | false =>
          simp only [List.find?_cons_eq_some, pa, Bool.false_eq_true, false_and,
            Bool.not_false, true_and, false_or] at h
          rw [List.map_cons, if_neg (by simp [pa])]
          exact (List.find?_cons_of_neg _ (by simp [pa])).trans (ih g h)

/-- C9: for `POST /api/payments/gift-card` — an unknown card number or a
stored balance strictly below the requested amount is answered with 400
and the store (gift cards and payments alike) is untouched; when the
balance suffices, the handler answers 200, appends exactly one
`'Gift Card'` payment row of the requested amount, reports the prior
balance minus the amount as remaining, the card's stored balance drops
by exactly the amount, and every other card is untouched. -/
theorem c9_gift_card_payment (db : GcDB) (card : String) (orderId : Nat)
    (amount : Money) :
    (db.gift_cards.find? (fun g => g.card_number == card) = none →
      giftCardPay db card orderId amount = ⟨400, db, none⟩) ∧
    (∀ g, db.gift_cards.find? (fun g => g.card_number == card) = some g →
      (g.balance < amount →
        giftCardPay db card orderId amount = ⟨400, db, none⟩) ∧
      (¬ g.balance < amount →
        (giftCardPay db card orderId amount).status = 200 ∧
        (giftCardPay db card orderId amount).db.payments =
          db.payments ++ [⟨orderId, "Gift Card", amount⟩] ∧
        (giftCardPay db card orderId amount).remaining = some (g.balance - amount) ∧
        (giftCardPay db card orderId amount).db.gift_cards.find?
            (fun x => x.card_number == card) =
          some { g with balance := g.balance - amount } ∧
        (∀ x ∈ db.gift_cards, x.card_number ≠ card →
          x ∈ (giftCardPay db card orderId amount).db.gift_cards))) := by
  constructor
  · intro h
    rw [giftCardPay, h]
  · intro g hg
    constructor
    · intro hlt
      rw [giftCardPay, hg]
      simp only [if_pos hlt]
    · intro hge
      rw [giftCardPay, hg]
      dsimp only
      rw [if_neg hge]
      refine ⟨rfl, rfl, rfl,
        find?_after_balance_update card amount db.gift_cards g hg, ?_⟩
      intro x hx hne
      exact List.mem_map.mpr ⟨x, hx, by rw [if_neg (by simp [hne])]⟩

/-- Witness for C9: paying 20 from a card holding 50 succeeds and leaves
30. -/
theorem c9_gift_card_payment_witness :
    (giftCardPay ⟨[⟨"GC1", 50⟩], []⟩ "GC1" 1 20).status = 200 ∧
    (giftCardPay ⟨[⟨"GC1", 50⟩], []⟩ "GC1" 1 20).remaining = some 30 := by
  have h := ((c9_gift_card_payment ⟨[⟨"GC1", 50⟩], []⟩ "GC1" 1 20).2 ⟨"GC1", 50⟩
    (by rfl)).2 (by norm_num)
  refine ⟨h.1, ?_⟩
  rw [h.2.2.1]
  norm_num

/-! ## C8 — pooled connections are released on every exit path -/

/-- `POST /orders` begins a transaction, acquires, and releases its
client on every path. -/
lemma placeOrder_flags (db : OrdersDB) (uid : String) (req : PlaceOrderReq)
    (newId now : Nat) (failAt : Option FailPoint) :
    (placeOrder db uid req newId now failAt).acquired = true ∧
    (placeOrder db uid req newId now failAt).released = true := by
  rw [placeOrder]
  split
  · exact ⟨rfl, rfl⟩
  · split
    · exact ⟨rfl, rfl⟩
    · split
      · exact ⟨rfl, rfl⟩
      · dsimp only
        split <;> exact ⟨rfl, rfl⟩

/-- `PUT /orders/:id` acquires and releases its client on every path. -/
lemma replaceOrder_flags (db : OrdersDB) (uid : String) (oid : Nat)
    (items : List ItemReq) (tp : Money) (now : Nat) (fail : Bool) :
    (replaceOrder db uid oid items tp now fail).acquired = true ∧
    (replaceOrder db uid oid items tp now fail).released = true := by
  rw [replaceOrder]
  split
  · exact ⟨rfl, rfl⟩
  · split <;> exact ⟨rfl, rfl⟩

/-- C8: for each of the three transactional handlers — place order,
replace order contents, bulk inventory update — the pooled connection is
released exactly when it was acquired, on success, validation failure,
and thrown-statement paths alike: no invocation ends still holding a
connection. -/
theorem c8_connection_release :
    (∀ (db : OrdersDB) (uid : String) (req : PlaceOrderReq) (newId now : Nat)
        (failAt : Option FailPoint),
      (placeOrder db uid req newId now failAt).released =
        (placeOrder db uid req newId now failAt).acquired) ∧
    (∀ (db : OrdersDB) (uid : String) (oid : Nat) (items : List ItemReq)
        (tp : Money) (now : Nat) (fail : Bool),
      (replaceOrder db uid oid items tp now fail).released =
        (replaceOrder db uid oid items tp now fail).acquired) ∧
    (∀ (db : InvDB) (items : List BulkItem) (dbFail : Bool),
      (bulkUpdate db items dbFail).released =
        (bulkUpdate db items dbFail).acquired) := by
  refine ⟨?_, ?_, ?_⟩
  · intro db uid req newId now failAt
    rw [(placeOrder_flags db uid req newId now failAt).1,
      (placeOrder_flags db uid req newId now failAt).2]
  · intro db uid oid items tp now fail
    rw [(replaceOrder_flags db uid oid items tp now fail).1,
      (replaceOrder_flags db uid oid items tp now fail).2]
  · intro db items dbFail
    rw [bulkUpdate]
    split
    · rfl
    · split
      · rfl
      · split <;> rfl

end ProjectDine
